import Mathlib

/-!
Verification development for the `elysia-bun-template` repository.

The repository's authored logic consists of two files:

* `src/index.ts` (the entry point): constructs an Elysia application,
  registers the swagger documentation plugin, registers handlers for
  `GET /` and `GET /users`, listens on port 3000, and prints a startup
  line.  The `/users` handler runs `db.select().from(users).all()` and
  returns the result unchanged.

* `drizzle.config.ts`: computes the database connection string from the
  optional environment variables `TURSO_DATABASE_URL` and
  `TURSO_AUTH_TOKEN`, falling back to `file:local.db`.

We embed both files shallowly: environment variables are `Option String`
(`none` = unset), JavaScript string truthiness is modelled explicitly,
the HTTP layer is a dispatch function from paths to responses, and the
database call in the `/users` handler is an `Except` value so that error
propagation can be stated.
-/

/-- JavaScript truthiness of an optional environment-variable string:
`undefined` and the empty string are falsy, every other string is truthy.
This models the `if (Bun.env.X)` tests in `drizzle.config.ts`. -/
def jsTruthy : Option String → Bool
  | none => false
  | some s => s ≠ ""

/-- The environment variables read by `drizzle.config.ts`.
`none` models an unset variable. -/
structure Env where
  tursoDatabaseUrl : Option String
  tursoAuthToken : Option String

/-- The connection-string computation of `drizzle.config.ts`:

```ts
let url: string = "file:local.db";
if (Bun.env.TURSO_DATABASE_URL) {
  url = Bun.env.TURSO_DATABASE_URL;
  if (Bun.env.TURSO_AUTH_TOKEN) {
    url += `?authToken=${Bun.env.TURSO_AUTH_TOKEN}`;
  }
}
```
-/
def url (env : Env) : String :=
  if jsTruthy env.tursoDatabaseUrl then
    (env.tursoDatabaseUrl.getD "") ++
      (if jsTruthy env.tursoAuthToken then
        "?authToken=" ++ env.tursoAuthToken.getD ""
      else "")
  else "file:local.db"

/-- A database error surfaced by the driver or the ORM; the repository
never inspects it, so a message string suffices. -/
def DbError : Type := String

/-- The ORM call `db.select().from(users).all()`: an unconditional,
unparameterized select-all against the `users` table, returning every row
unmodified and unfiltered. -/
def selectAll {Row : Type} (table : List Row) : List Row := table

/-- An HTTP response body: either plain text or a JSON array of rows. -/
inductive Body (Row : Type) where
  | text (s : String)
  | json (rows : List Row)
deriving DecidableEq

/-- An HTTP response: status code and body. -/
structure Response (Row : Type) where
  status : Nat
  body : Body Row
deriving DecidableEq

/-- The `GET /` handler `() => "Hello Elysia"`: a constant, taking no
input and incapable of raising. -/
def rootHandler {Row : Type} : Response Row :=
  { status := 200, body := Body.text "Hello Elysia" }

/-- The `GET /users` handler
`async () => { return await db.select().from(users).all(); }` applied to
the outcome of the database call.  A successful query becomes a 200
response carrying the rows; a failed query is passed through untouched —
the handler contains no catch, retry, recovery, or error-formatting
logic. -/
def usersHandler {Row : Type} (dbResult : Except DbError (List Row)) :
    Except DbError (Response Row) :=
  dbResult.map (fun rows => { status := 200, body := Body.json rows })

/-- Route dispatch for the two authored routes of `src/index.ts`.  Given
the current contents of the `users` table, a path is mapped to the
response its handler produces (`none` for paths the authored code does
not register). -/
def handleRequest {Row : Type} (usersTable : List Row) (path : String) :
    Option (Except DbError (Response Row)) :=
  if path = "/" then some (Except.ok rootHandler)
  else if path = "/users" then some (usersHandler (Except.ok (selectAll usersTable)))
  else none

/-- The plugin registered on the app.  The source registers exactly one,
`swagger()`; `logging` exists only to state the spec's (incorrect)
description of the startup sequence. -/
inductive PluginKind where
  | swagger
  | logging
deriving DecidableEq

/-- One observable startup step of `src/index.ts`. -/
inductive StartupStep where
  | constructApp
  | usePlugin (kind : PluginKind)
  | registerHandler (method : String) (path : String)
  | listen (port : Nat)
  | logStartupLine
deriving DecidableEq

/-- The startup sequence of `src/index.ts`, in source order:

```ts
const app = new Elysia()
  .use(swagger())
  .get("/", () => "Hello Elysia")
  .get("/users", async () => { ... })
  .listen(3000);

console.log(`🦊 Elysia is running at ...`);
```

The sequence takes the environment as an argument to record that no step
of the entry point consults it. -/
def startupSteps (env : Env) : List StartupStep :=
  let _ := env
  [ StartupStep.constructApp,
    StartupStep.usePlugin PluginKind.swagger,
    StartupStep.registerHandler "GET" "/",
    StartupStep.registerHandler "GET" "/users",
    StartupStep.listen 3000,
    StartupStep.logStartupLine ]

/-- Whether a startup step registers an HTTP handler. -/
def StartupStep.isRegisterHandler : StartupStep → Bool
  | StartupStep.registerHandler _ _ => true
  | _ => false

/-- The port a startup step listens on, if it is a listen step. -/
def StartupStep.listenPort : StartupStep → Option Nat
  | StartupStep.listen p => some p
  | _ => none

/-- The ports the startup sequence binds to under environment `env`. -/
def boundPorts (env : Env) : List Nat :=
  (startupSteps env).filterMap StartupStep.listenPort

/-! ## Claims -/

/-- C1: for every state of the users table, `GET /users` returns
HTTP 200 with exactly the rows produced by the single unconditional
select-all query, unmodified and unfiltered — the empty JSON array when
the table holds no rows. -/
theorem users_route_returns_select_all (Row : Type) :
    (∀ usersTable : List Row,
      handleRequest usersTable "/users" =
        some (Except.ok { status := 200, body := Body.json (selectAll usersTable) }) ∧
      selectAll usersTable = usersTable) ∧
    handleRequest ([] : List Row) "/users" =
      some (Except.ok { status := 200, body := Body.json ([] : List Row) }) :=
  ⟨fun _ => ⟨rfl, rfl⟩, rfl⟩

/-- C2: for every request (every table state), `GET /` returns HTTP 200
with the fixed literal string "Hello Elysia"; the handler takes no input
and never produces an error. -/
theorem root_route_returns_greeting (Row : Type) :
    ∀ usersTable : List Row,
      handleRequest usersTable "/" =
        some (Except.ok { status := 200, body := Body.text "Hello Elysia" }) :=
  fun _ => rfl

/-- C3: when neither `TURSO_DATABASE_URL` nor `TURSO_AUTH_TOKEN` is set,
the connection-string computation returns `file:local.db` (it is a total
function, so no error is raised). -/
theorem url_defaults_to_local_file :
    url { tursoDatabaseUrl := none, tursoAuthToken := none } = "file:local.db" :=
  rfl

/-- C4: when `TURSO_DATABASE_URL` is set non-empty and `TURSO_AUTH_TOKEN`
is unset, the connection string equals `TURSO_DATABASE_URL` exactly, with
no authToken query parameter appended. -/
theorem url_without_token_is_database_url (u : String) (hu : u ≠ "") :
    url { tursoDatabaseUrl := some u, tursoAuthToken := none } = u := by
  simp [url, jsTruthy, hu]

/-- Witness for C4 at a concrete database URL. -/
theorem url_without_token_is_database_url_witness :
    url { tursoDatabaseUrl := some "libsql://db.example", tursoAuthToken := none } =
      "libsql://db.example" :=
  url_without_token_is_database_url "libsql://db.example" (by decide)

/-- C5: when both `TURSO_DATABASE_URL` and `TURSO_AUTH_TOKEN` are set
non-empty, the connection string is the database URL followed by
`?authToken=` and the token. -/
theorem url_with_token_appends_auth_token (u t : String) (hu : u ≠ "") (ht : t ≠ "") :
    url { tursoDatabaseUrl := some u, tursoAuthToken := some t } =
      u ++ "?authToken=" ++ t := by
  simp [url, jsTruthy, hu, ht, String.append_assoc]

/-- Witness for C5 at concrete values. -/
theorem url_with_token_appends_auth_token_witness :
    url { tursoDatabaseUrl := some "libsql://db.example", tursoAuthToken := some "tok123" } =
      "libsql://db.example" ++ "?authToken=" ++ "tok123" :=
  url_with_token_appends_auth_token "libsql://db.example" "tok123" (by decide) (by decide)

/-- C6, as stated, is false on the code: the startup sequence registers
the swagger documentation plugin, not a logging middleware plugin; it
registers two HTTP handlers, not three; and after binding the port it
performs one further step, printing a startup log line. -/
theorem startup_sequence_counterexample :
    (∀ env : Env, StartupStep.usePlugin PluginKind.logging ∉ startupSteps env) ∧
    ((startupSteps { tursoDatabaseUrl := none, tursoAuthToken := none }).filter
        StartupStep.isRegisterHandler).length = 2 ∧
    StartupStep.logStartupLine ∈
      startupSteps { tursoDatabaseUrl := none, tursoAuthToken := none } :=
  ⟨fun env => by simp [startupSteps], by decide, by decide⟩

/-- C6 (amended): at process start the program performs, in this order:
construct the framework application object, register the swagger
documentation plugin, register two HTTP handlers (`GET /` and
`GET /users`), bind to port 3000, and print a startup log line; no other
startup steps occur, whatever the environment. -/
theorem startup_sequence_amended :
    ∀ env : Env,
      startupSteps env =
        [ StartupStep.constructApp,
          StartupStep.usePlugin PluginKind.swagger,
          StartupStep.registerHandler "GET" "/",
          StartupStep.registerHandler "GET" "/users",
          StartupStep.listen 3000,
          StartupStep.logStartupLine ] :=
  fun _ => rfl

/-- C7: every failing database operation in the `GET /users` handler
propagates out unchanged — the handler applies no catch, retry,
recovery, or error formatting to an errored query result. -/
theorem users_handler_propagates_db_error (Row : Type) :
    ∀ e : DbError, @usersHandler Row (Except.error e) = Except.error e :=
  fun _ => rfl

/-- C8: the server binds exactly one port, the constant 3000, regardless
of the environment — no configuration surface reaches the listen call. -/
theorem listen_port_is_constant_3000 :
    ∀ env : Env, boundPorts env = [3000] :=
  fun _ => rfl

/-- C9: when `TURSO_AUTH_TOKEN` is set (to any value) but
`TURSO_DATABASE_URL` is unset or empty, the token is ignored entirely:
the connection string is the local fallback `file:local.db`. -/
theorem url_ignores_token_without_database_url :
    ∀ t : String,
      url { tursoDatabaseUrl := none, tursoAuthToken := some t } = "file:local.db" ∧
      url { tursoDatabaseUrl := some "", tursoAuthToken := some t } = "file:local.db" :=
  fun _ => ⟨rfl, rfl⟩

/-- C10: the selection tests truthiness, not presence: an empty
`TURSO_DATABASE_URL` behaves as unset (local fallback, whatever the
token), and an empty `TURSO_AUTH_TOKEN` appends no `?authToken=`
suffix. -/
theorem url_tests_truthiness_not_presence (tok : Option String) (u : String)
    (hu : u ≠ "") :
    url { tursoDatabaseUrl := some "", tursoAuthToken := tok } = "file:local.db" ∧
    url { tursoDatabaseUrl := some u, tursoAuthToken := some "" } = u := by
  refine ⟨rfl, ?_⟩
  simp [url, jsTruthy, hu]

/-- Witness for C10 at concrete values. -/
theorem url_tests_truthiness_not_presence_witness :
    url { tursoDatabaseUrl := some "", tursoAuthToken := some "tok123" } = "file:local.db" ∧
    url { tursoDatabaseUrl := some "libsql://db.example", tursoAuthToken := some "" } =
      "libsql://db.example" :=
  url_tests_truthiness_not_presence (some "tok123") "libsql://db.example" (by decide)
